import Mathlib

/-!
Shallow embedding of the Talkers Cave game component
(`src/components/TalkersCaveGame.tsx`).

The component is a browser UI whose behaviour is a single-threaded state
machine over React `useState` fields.  We embed that state as a `GameState`
structure and every event handler / effect body as a pure transition
function.  External collaborators (the generative-AI service, the browser
speech recognizers and synthesizer) are modelled as explicit parameters:
an AI call is represented by its outcome (an exception, or a response whose
extracted JSON is an optional `Json` value), a recognition session by the
event it delivered.
-/

namespace TalkersCave

/-- JSON values, as produced by `JSON.parse` inside `extractJson`.
Numbers are irrelevant to every claim and are kept abstract as `Int`. -/
inductive Json where
  | null : Json
  | bool : Bool → Json
  | num : Int → Json
  | str : String → Json
  | arr : List Json → Json
  | obj : List (String × Json) → Json

/-- `k in o` for a JS object `o` modelled as a field list. -/
def hasKey (fields : List (String × Json)) (k : String) : Bool :=
  fields.any (fun f => f.1 == k)

/-- JS property access `j[k]`: `none` models `undefined`. -/
def jsonField (j : Json) (k : String) : Option Json :=
  match j with
  | Json.obj fields => (fields.find? (fun f => f.1 == k)).map (fun f => f.2)
  | _ => none

/-! ### JavaScript string primitives

The source manipulates strings with `trim`, `toLowerCase`, `split` and a
character-class `replace`.  These are embedded over the character list of a
`String` so that every definition reduces inside the kernel. -/

/-- The characters `String.prototype.trim` removes (ASCII whitespace;
the claims only exercise ASCII input). -/
def jsIsWhitespace (c : Char) : Bool :=
  c == ' ' || c == '\t' || c == '\n' || c == '\r' || c == '\x0b' || c == '\x0c'

/-- `s.trim()`. -/
def jsTrim (s : String) : String :=
  String.mk (((s.data.dropWhile jsIsWhitespace).reverse.dropWhile
    jsIsWhitespace).reverse)

/-- `String.prototype.toLowerCase` on one character (ASCII range; the
claims only exercise ASCII input). -/
def jsCharToLower (c : Char) : Char :=
  if 'A' ≤ c ∧ c ≤ 'Z' then Char.ofNat (c.toNat + 32) else c

/-- `s.toLowerCase()`. -/
def jsToLower (s : String) : String :=
  String.mk (s.data.map jsCharToLower)

/-- Auxiliary for `jsSplitOn`: splits a character list at every occurrence
of `sep`, keeping empty pieces, exactly like `s.split(sep)` in JS. -/
def jsSplitAux (sep : Char) : List Char → List Char → List String
  | [], acc => [String.mk acc.reverse]
  | c :: cs, acc =>
    if c == sep then String.mk acc.reverse :: jsSplitAux sep cs []
    else jsSplitAux sep cs (c :: acc)

/-- `s.split(sep)` for a one-character separator. -/
def jsSplitOn (s : String) (sep : Char) : List String :=
  jsSplitAux sep s.data []

/-- `word.trim().toLowerCase().replace(/[.,?!]/g, '')` (line 94 of the
source).  Only the four characters `.`, `,`, `?`, `!` are removed. -/
def cleanWord (word : String) : String :=
  String.mk ((jsToLower (jsTrim word)).data.filter
    (fun c => !(c == '.' || c == ',' || c == '?' || c == '!')))

example : cleanWord "  Hello,! " = "hello" := by decide
example : jsSplitOn "a  b c" ' ' = ["a", "", "b", "c"] := by decide

/-! ### Data model (type definitions of the source, lines 52-57) -/

/-- `type Step` (line 53). -/
inductive Step where
  | SCENE | CHARACTER | LOADING_SCRIPT | GAME
  | ANALYZING_PERFORMANCE | PRACTICE_PREP | PRACTICE | COMPLETE
deriving DecidableEq, Repr

/-- `type Mistake = { said: string; expected: string }` (line 56). -/
structure Mistake where
  said : String
  expected : String
deriving DecidableEq, Repr

/-- `type PracticeWord = { word: string; phonemes: string[] }` (line 57). -/
structure PracticeWord where
  word : String
  phonemes : List String
deriving DecidableEq, Repr

/-- One entry of the `userDialog` state (line 220):
`{ target: string; said: string }`.  The target is stored exactly as read
from `script[currentTurn].line`, i.e. as the raw JSON field value
(`none` models `undefined` when the field is absent). -/
structure DialogRecord where
  target : Option Json
  said : String

/-- The practice status union (line 225). -/
inductive PracticeStatus where
  | IDLE | LISTENING | SUCCESS | TRY_AGAIN
deriving DecidableEq, Repr

/-- The `practiceAttemptResult` ref values (line 233). -/
inductive AttemptResult where
  | SUCCESS | TRY_AGAIN | NO_RESULT
deriving DecidableEq, Repr

/-- The component state: one field per `useState` of `TalkersCaveGame`
(lines 207-226), plus `completedCalled`, which records that the
`onComplete(true)` callback has been invoked. -/
structure GameState where
  step : Step
  selectedScene : Option String
  centeredScene : String
  selectedCharacter : Option String
  script : List Json
  error : Option String
  currentTurn : Nat
  isAiSpeaking : Bool
  isRecognitionActive : Bool
  recognitionError : Option String
  mistakes : List Mistake
  isAnalyzing : Bool
  userDialog : List DialogRecord
  userTranscript : String
  practiceWords : List PracticeWord
  currentPracticeWordIndex : Nat
  practiceStatus : PracticeStatus
  practiceTranscript : String
  completedCalled : Bool

/-- The initial state of the component (the `useState` initialisers). -/
def initState : GameState where
  step := Step.SCENE
  selectedScene := none
  centeredScene := "Shopkeeper and Customer"
  selectedCharacter := none
  script := []
  error := none
  currentTurn := 0
  isAiSpeaking := false
  isRecognitionActive := false
  recognitionError := none
  mistakes := []
  isAnalyzing := false
  userDialog := []
  userTranscript := ""
  practiceWords := []
  currentPracticeWordIndex := 0
  practiceStatus := PracticeStatus.IDLE
  practiceTranscript := ""
  completedCalled := false

/-! ### AI calls

Each call to the generative-AI service either throws or returns a response
text; the response text only ever reaches the code through
`extractJson`, so an outcome carries the extracted `Option Json` directly. -/

/-- Outcome of one AI call, as seen after `extractJson`. -/
inductive AiOutcome where
  | threw : AiOutcome
  | responded : Option Json → AiOutcome

/-- `Array.isArray(result) && result.every(item => typeof item === 'string')`:
returns the strings when the value is an array of strings, otherwise
`none`. -/
def asStringArray : Json → Option (List String)
  | Json.arr items =>
    items.mapM (fun j => match j with | Json.str s => some s | _ => none)
  | _ => none

/-- `getPhoneticBreakdown` (lines 132-158), as a function of the word and
the AI-call outcome: a valid array-of-strings response is returned as is;
any exception or other response falls back to the singleton `[word]`. -/
def getPhoneticBreakdown (word : String) (outcome : AiOutcome) : List String :=
  match outcome with
  | AiOutcome.threw => [word]
  | AiOutcome.responded parsed =>
    match parsed.bind asStringArray with
    | some result => result
    | none => [word]

/-- `analyzeReadingWithAI` (lines 160-204).  The target text is the raw
dialog-record target (a JSON value).  When the spoken text is blank the
function returns the non-empty pieces of `targetText.split(' ')` without
any AI call; that split throws in JS when the target is not a string, and
the `none` result models that exception (which escapes the function: the
early return is outside the `try`).  Otherwise a valid array-of-strings
response is returned, and any exception or other response yields `[]`. -/
def analyzeReadingWithAI (spokenText : String) (targetText : Option Json)
    (outcome : AiOutcome) : Option (List String) :=
  if jsTrim spokenText == "" then
    match targetText with
    | some (Json.str t) => some ((jsSplitOn t ' ').filter (fun w => w ≠ ""))
    | _ => none
  else
    some (match outcome with
      | AiOutcome.threw => []
      | AiOutcome.responded parsed =>
        match parsed.bind asStringArray with
        | some result => result
        | none => [])

/-! ### Performance analysis and practice preparation -/

/-- `[...new Set(xs)]`: dedupe keeping the first occurrence of each
element, in order, exactly as a JS `Set` iterates. -/
def jsSetDedupAux (seen : List String) : List String → List String
  | [] => []
  | x :: xs =>
    if x ∈ seen then jsSetDedupAux seen xs
    else x :: jsSetDedupAux (x :: seen) xs

/-- `[...new Set(xs)]`. -/
def jsSetDedup (xs : List String) : List String :=
  jsSetDedupAux [] xs

/-- The loop of `analyzeAllDialog` (lines 440-443): concatenates the
per-turn incorrect words, threading the index so that each turn gets its
own AI-call outcome.  `none` models the loop dying on an exception that
escapes `analyzeReadingWithAI`. -/
def collectIncorrectWords (dialogs : List DialogRecord)
    (outcomes : Nat → AiOutcome) (i : Nat) : Option (List String) :=
  match dialogs with
  | [] => some []
  | d :: rest =>
    match analyzeReadingWithAI d.said d.target (outcomes i) with
    | none => none
    | some ws =>
      match collectIncorrectWords rest outcomes (i + 1) with
      | none => none
      | some rs => some (ws ++ rs)

/-- The `ANALYZING_PERFORMANCE` effect (lines 434-457): runs
`analyzeAllDialog`, deduplicates the collected words into `Mistake`
records with empty `said`, and moves to `PRACTICE_PREP` when there are
mistakes and `COMPLETE` otherwise.  When the loop dies on an exception the
only state update that has happened is `setIsAnalyzing(true)`. -/
def analyzeStep (s : GameState) (outcomes : Nat → AiOutcome) : GameState :=
  if s.step ≠ Step.ANALYZING_PERFORMANCE then s
  else
    match collectIncorrectWords s.userDialog outcomes 0 with
    | none => { s with isAnalyzing := true }
    | some allIncorrectWords =>
      let allMistakes : List Mistake :=
        (jsSetDedup allIncorrectWords).map
          (fun word => { expected := word, said := "" })
      { s with
        mistakes := allMistakes
        isAnalyzing := false
        step := if allMistakes.length > 0 then Step.PRACTICE_PREP
                else Step.COMPLETE }

/-- The `PRACTICE_PREP` effect (lines 459-478): dedupes the mistakes'
expected words (dropping falsy i.e. empty ones), fetches a phonetic
breakdown per word (`phonemesOf`, an oracle standing for
`getPhoneticBreakdown` applied to that word's AI-call outcome), drops the
entries with an empty phoneme list, and enters `PRACTICE`; when there is
nothing to practice it just calls `onComplete(true)`. -/
def preparePractice (s : GameState) (phonemesOf : String → List String) :
    GameState :=
  if s.step ≠ Step.PRACTICE_PREP then s
  else
    let wordsToPractice :=
      jsSetDedup ((s.mistakes.map (fun m => m.expected)).filter
        (fun w => w ≠ ""))
    if wordsToPractice.length = 0 then { s with completedCalled := true }
    else
      let phoneticData : List PracticeWord :=
        wordsToPractice.map (fun w => { word := w, phonemes := phonemesOf w })
      { s with
        practiceWords := phoneticData.filter (fun p => p.phonemes.length > 0)
        currentPracticeWordIndex := 0
        practiceStatus := PracticeStatus.IDLE
        practiceTranscript := ""
        step := Step.PRACTICE }

/-! ### Script generation (`generateScript`, lines 500-584) -/

/-- The error message template of the `catch` branch (line 581). -/
def scriptFailureMessage (m : String) : String :=
  "Sorry, I couldn't create a script. " ++ m ++ " Please try again."

/-- The message of the `Error` thrown on an invalid script (line 576). -/
def invalidScriptMessage : String :=
  "Received invalid script format from API. Expected a JSON array of 8 script lines."

/-- `'character' in item && 'line' in item` (line 571) for one array item.
(`in` applied to a JS primitive throws a `TypeError`; that exception lands
in the same `catch` as a failed validation, so it is folded into the
`false` case here — no claim observes the difference.) -/
def isScriptItem : Json → Bool
  | Json.obj fields => hasKey fields "character" && hasKey fields "line"
  | _ => false

/-- The validation of line 571: the parsed value must be an array of
exactly 8 items each having `character` and `line` properties. -/
def validateScript : Option Json → Option (List Json)
  | some (Json.arr items) =>
    if items.length == 8 && items.all isScriptItem then some items else none
  | _ => none

/-- The possible outcomes of the body of `generateScript`'s `try` block:
either something threw before/at the AI call (missing AI character,
missing grade guidelines, or the call itself failing, with the message of
the thrown error), or the call returned and `extractJson` produced
`parsed`. -/
inductive GenOutcome where
  | threw : String → GenOutcome
  | responded : Option Json → GenOutcome

/-- `generateScript` (lines 500-584): clears the error and shows the
loading step, then either installs the validated script and starts the
game at turn 0, or reports the failure and returns to character
selection. -/
def generateScript (s : GameState) (outcome : GenOutcome) : GameState :=
  let s1 := { s with error := none, step := Step.LOADING_SCRIPT }
  match outcome with
  | GenOutcome.threw m =>
    { s1 with error := some (scriptFailureMessage m), step := Step.CHARACTER }
  | GenOutcome.responded parsed =>
    match validateScript parsed with
    | some items =>
      { s1 with script := items, step := Step.GAME, currentTurn := 0 }
    | none =>
      { s1 with
        error := some (scriptFailureMessage invalidScriptMessage)
        step := Step.CHARACTER }

/-! ### Turn-taking orchestrator (`GAME` step) -/

/-- `currentLine.character === selectedCharacter` (line 612): strict JS
equality between the raw `character` field and the (nullable)
`selectedCharacter` state. -/
def isUserTurn (line : Json) (sel : Option String) : Bool :=
  match jsonField line "character", sel with
  | some (Json.str c), some sc => c == sc
  | some Json.null, none => true
  | _, _ => false

/-- `processUserTurn` (lines 238-250): guarded by the `hasProcessedTurn`
ref; appends `(script[currentTurn].line, transcript)` to the user dialog
and advances the turn, or moves to `ANALYZING_PERFORMANCE` after the last
turn.  (Out-of-range `currentTurn` would throw in JS; it is unreachable
because the `GAME` effect only runs with `currentTurn < script.length`.) -/
def processUserTurn (s : GameState) (transcript : String)
    (hasProcessedTurn : Bool) : GameState :=
  if hasProcessedTurn then s
  else
    match s.script.get? s.currentTurn with
    | none => s
    | some currentLine =>
      let entry : DialogRecord :=
        { target := jsonField currentLine "line", said := transcript }
      let s2 := { s with userDialog := s.userDialog ++ [entry] }
      if s2.currentTurn < s2.script.length - 1 then
        { s2 with currentTurn := s2.currentTurn + 1 }
      else
        { s2 with step := Step.ANALYZING_PERFORMANCE }

/-- The game recognizer's `onend` handler (lines 377-383): recognition
becomes inactive, and the captured transcript is processed only when the
stop was intentional and the turn has not been processed yet. -/
def gameRecognitionEnd (s : GameState) (transcriptRef : String)
    (wasStoppedIntentionally hasProcessedTurn : Bool) : GameState :=
  let s1 := { s with isRecognitionActive := false }
  if wasStoppedIntentionally && !hasProcessedTurn then
    processUserTurn s1 (jsTrim transcriptRef) hasProcessedTurn
  else s1

/-- The game recognizer's `onerror` handler (lines 385-395): `aborted` and
`no-speech` are ignored; permission errors and everything else set a
user-facing message. -/
def gameHandleError (s : GameState) (errType : String) : GameState :=
  if errType == "aborted" || errType == "no-speech" then s
  else if errType == "not-allowed" || errType == "service-not-allowed" then
    { s with recognitionError := some "Microphone access denied." }
  else
    { s with recognitionError := some ("Mic error: \"" ++ errType ++ "\".") }

/-- The game recognizer's `onstart` handler (lines 360-364). -/
def gameRecognitionStart (s : GameState) : GameState :=
  { s with userTranscript := "", isRecognitionActive := true }

/-- The game recognizer's `onresult` handler (lines 366-375): while the
turn is unprocessed, mirrors the accumulated transcript into state. -/
def gameRecognitionResult (s : GameState) (fullTranscript : String)
    (hasProcessedTurn : Bool) : GameState :=
  if hasProcessedTurn then s
  else { s with userTranscript := fullTranscript }

/-- `startRecognition` (lines 586-596): ignored while recognition is
active; otherwise clears the recognition error and starts the recognizer,
reporting a failure to start unless the thrown error (`startError`, by
name) is an `InvalidStateError`. -/
def startRecognition (s : GameState) (startError : Option String) :
    GameState :=
  if s.isRecognitionActive then s
  else
    let s1 := { s with recognitionError := none }
    match startError with
    | none => s1
    | some name =>
      if name ≠ "InvalidStateError" then
        { s1 with recognitionError := some "Failed to start microphone." }
      else s1

/-- The guard of the `GAME` orchestration effect (line 610). -/
def gameEffectActive (s : GameState) : Bool :=
  s.step == Step.GAME && !(s.script.length == 0) &&
    s.currentTurn < s.script.length &&
    s.recognitionError == none && !s.isAiSpeaking

/-- The line the `GAME` effect passes to `speak` (line 625): on an AI turn
the raw `line` field of the current script entry; `none` when the guard
fails or it is the user's turn (nothing is spoken). -/
def gameEffectSpeaks (s : GameState) : Option (Option Json) :=
  if gameEffectActive s then
    match s.script.get? s.currentTurn with
    | some currentLine =>
      if isUserTurn currentLine s.selectedCharacter then none
      else some (jsonField currentLine "line")
    | none => none
  else none

/-- `handleAiTurnEnd` (lines 618-624): after the synthesis of an AI line
ends, advance the turn, or move to `ANALYZING_PERFORMANCE` after the last
turn. -/
def handleAiTurnEnd (s : GameState) : GameState :=
  if s.currentTurn < s.script.length - 1 then
    { s with currentTurn := s.currentTurn + 1 }
  else
    { s with step := Step.ANALYZING_PERFORMANCE }

/-! ### Practice drill (`PRACTICE` step) -/

/-- The practice recognizer's `onresult` handler (lines 283-300), as a
function of the current state and the raw transcript of the first result:
returns the updated state together with the `practiceAttemptResult` ref
value it leaves behind (`none` = the ref keeps its previous value,
`null`). -/
def practiceResultHandler (s : GameState) (raw : String) :
    GameState × Option AttemptResult :=
  let transcript := jsTrim raw
  if transcript == "" then (s, some AttemptResult.NO_RESULT)
  else
    let s1 := { s with practiceTranscript := transcript }
    -- `practiceWords.length > 0 && currentPracticeWordIndex <
    -- practiceWords.length` is exactly when `get?` succeeds.
    match s1.practiceWords.get? s1.currentPracticeWordIndex with
    | some pw =>
      if cleanWord transcript == cleanWord pw.word then
        (s1, some AttemptResult.SUCCESS)
      else (s1, some AttemptResult.TRY_AGAIN)
    | none => (s1, none)

/-- The practice recognizer's `onerror` handler (lines 302-307): sets a
user-facing message unless the error is `no-speech` or `aborted`, and
records `NO_RESULT`. -/
def practiceErrorHandler (s : GameState) (errType : String) :
    GameState × Option AttemptResult :=
  let s1 :=
    if !(errType == "no-speech") && !(errType == "aborted") then
      { s with
          recognitionError := some ("Mic error: \"" ++ errType ++ "\".") }
    else s
  (s1, some AttemptResult.NO_RESULT)

/-- The practice recognizer's `onend` handler (lines 309-327), immediate
part: maps the attempt result to the new practice status.  The `SUCCESS`
case additionally schedules `practiceSuccessTimeout` 1500 ms later. -/
def practiceEndHandler (s : GameState) (attempt : Option AttemptResult) :
    GameState :=
  match attempt with
  | some AttemptResult.SUCCESS => { s with practiceStatus := PracticeStatus.SUCCESS }
  | some AttemptResult.TRY_AGAIN => { s with practiceStatus := PracticeStatus.TRY_AGAIN }
  | _ => { s with practiceStatus := PracticeStatus.IDLE }

/-- The timeout body scheduled by the `SUCCESS` branch of the `onend`
handler (lines 312-320): advance to the next practice word, or call
`onComplete(true)` after the last one. -/
def practiceSuccessTimeout (s : GameState) : GameState :=
  if s.currentPracticeWordIndex < s.practiceWords.length - 1 then
    { s with
      currentPracticeWordIndex := s.currentPracticeWordIndex + 1
      practiceStatus := PracticeStatus.IDLE
      practiceTranscript := "" }
  else { s with completedCalled := true }

/-- What one practice recognition session delivered between `start()` and
`onend`: a result event, an error event, nothing at all, or
`recognizer.start()` itself throwing. -/
inductive PracticeEvent where
  | result : String → PracticeEvent
  | errorEvent : String → PracticeEvent
  | silence : PracticeEvent
  | startFailed : PracticeEvent

/-- One full practice attempt: `handlePracticeMicClick` (lines 480-498)
followed — when recognition started — by the delivered event's handler and
then the `onend` handler.  Blocked when the status is `LISTENING` or
`SUCCESS` (the button is also disabled then). -/
def practiceAttempt (s : GameState) (ev : PracticeEvent) : GameState :=
  if s.practiceStatus == PracticeStatus.LISTENING ||
      s.practiceStatus == PracticeStatus.SUCCESS then s
  else
    let s1 := { s with
      practiceTranscript := ""
      practiceStatus := PracticeStatus.LISTENING }
    match ev with
    | PracticeEvent.startFailed =>
      { s1 with
        recognitionError := some "Mic failed to start. Please try again."
        practiceStatus := PracticeStatus.IDLE }
    | PracticeEvent.result raw =>
      practiceEndHandler (practiceResultHandler s1 raw).1
        (practiceResultHandler s1 raw).2
    | PracticeEvent.errorEvent errType =>
      practiceEndHandler (practiceErrorHandler s1 errType).1
        (practiceErrorHandler s1 errType).2
    | PracticeEvent.silence => practiceEndHandler s1 none

/-! ### Selection handlers -/

/-- `handleSceneSelect` (line 636). -/
def handleSceneSelect (s : GameState) (scene : String) : GameState :=
  { s with selectedScene := some scene, step := Step.CHARACTER }

/-- `handleBackToScenes` (line 638). -/
def handleBackToScenes (s : GameState) : GameState :=
  { s with
    step := Step.SCENE
    selectedCharacter := none
    selectedScene := none
    centeredScene := "Shopkeeper and Customer" }

/-- `handleCharacterSelect` (line 637): clears the per-session analysis
state, records the chosen character and triggers a fresh script
generation. -/
def handleCharacterSelect (s : GameState) (character : String)
    (outcome : GenOutcome) : GameState :=
  generateScript
    { s with mistakes := [], userDialog := [],
             selectedCharacter := some character }
    outcome

/-! ### Spec-side comparison definitions

These two definitions follow the words of the specification (not the
source); they exist only to compare the spec's reading against the code's
behaviour. -/

/-- ASCII punctuation. -/
def isPunctChar (c : Char) : Bool :=
  c ∈ "!\"#$%&'()*+,-./:;<=>?@[\\]^_`\x7b|\x7d~".data

/-- The comparison key described by the claim "case-insensitive and
punctuation-insensitive comparison (for all punctuation)": lowercase,
trim, and drop every punctuation character. -/
def specPunctInsensitiveClean (w : String) : String :=
  String.mk ((jsToLower (jsTrim w)).data.filter (fun c => !(isPunctChar c)))

/-- "every non-empty whitespace-separated word" of a string, as the claim
describes the blank-transcript fallback. -/
def specWhitespaceWords (s : String) : List String :=
  ((s.data.splitOnP jsIsWhitespace).map String.mk).filter (fun w => w ≠ "")

/-! ### Concrete states used by witnesses and counterexamples -/

/-- A well-formed script item, as the AI is instructed to produce. -/
def sampleScriptLine : Json :=
  Json.obj [("character", Json.str "Snake"), ("line", Json.str "Hello there!")]

/-- An 8-item script array. -/
def sampleScriptItems : List Json := List.replicate 8 sampleScriptLine

/-- A state that has finished the game with one captured user turn. -/
def analyzingState : GameState :=
  { initState with
    step := Step.ANALYZING_PERFORMANCE
    userDialog := [{ target := some (Json.str "Hello there"), said := "Hello there" }] }

/-- A state in the practice step on the single word `dog`. -/
def practiceDogState : GameState :=
  { initState with
    step := Step.PRACTICE
    practiceWords := [{ word := "dog", phonemes := ["dog"] }] }

/-- A `GAME`-step state over a two-line script where the AI (the
shopkeeper) speaks first and the user plays the customer. -/
def gameStateTwoLines : GameState :=
  { initState with
    step := Step.GAME
    selectedScene := some "Shopkeeper and Customer"
    selectedCharacter := some "Customer"
    script :=
      [Json.obj [("character", Json.str "Shopkeeper"),
                 ("line", Json.str "Welcome!")],
       Json.obj [("character", Json.str "Customer"),
                 ("line", Json.str "Hello.")]] }

/-- A practice state on the word `cat` right after a failed attempt whose
transcript was `dog`. -/
def practiceTryAgainState : GameState :=
  { initState with
    step := Step.PRACTICE
    practiceWords := [{ word := "cat", phonemes := ["cat"] }]
    practiceStatus := PracticeStatus.TRY_AGAIN
    practiceTranscript := "dog" }

/-! ### Helper lemmas -/

/-- `jsSetDedupAux` produces a duplicate-free list avoiding `seen`. -/
theorem jsSetDedupAux_nodup_avoiding (l : List String) :
    ∀ seen : List String, (jsSetDedupAux seen l).Nodup ∧
      ∀ x ∈ jsSetDedupAux seen l, x ∉ seen := by
  induction l with
  | nil => intro seen; simp [jsSetDedupAux]
  | cons x xs ih =>
    intro seen
    by_cases hx : x ∈ seen
    · simpa [jsSetDedupAux, hx] using ih seen
    · obtain ⟨hnd, hmem⟩ := ih (x :: seen)
      simp only [jsSetDedupAux, hx, if_neg, ite_false]
      constructor
      · exact List.nodup_cons.mpr
          ⟨fun hxin => (hmem x hxin) (List.mem_cons_self x seen), hnd⟩
      · intro y hy
        rcases List.mem_cons.mp hy with h | h
        · exact h ▸ hx
        · exact fun hyseen => (hmem y h) (List.mem_cons_of_mem x hyseen)

/-- `[...new Set(xs)]` has no duplicates. -/
theorem jsSetDedup_nodup (xs : List String) : (jsSetDedup xs).Nodup :=
  (jsSetDedupAux_nodup_avoiding xs []).1

/-! ### Claims -/

/-- C1: for every AI response whose extracted JSON parses to an array of
exactly 8 objects each having both a `character` and a `line` property,
`generateScript` sets the script to that array, sets the step to `GAME`,
and sets the current turn to 0. -/
theorem c1_valid_script_starts_game (s : GameState) (items : List Json)
    (hlen : items.length = 8)
    (hitems : ∀ it ∈ items, isScriptItem it = true) :
    (generateScript s (GenOutcome.responded (some (Json.arr items)))).script
        = items ∧
    (generateScript s (GenOutcome.responded (some (Json.arr items)))).step
        = Step.GAME ∧
    (generateScript s (GenOutcome.responded (some (Json.arr items)))).currentTurn
        = 0 := by
  have hall : items.all isScriptItem = true := List.all_eq_true.mpr hitems
  simp [generateScript, validateScript, hlen, hall]

/-- Witness for C1 at a concrete 8-object script array. -/
theorem c1_valid_script_starts_game_witness :
    sampleScriptItems.length = 8 ∧
    ((generateScript initState
        (GenOutcome.responded (some (Json.arr sampleScriptItems)))).script
      = sampleScriptItems ∧
    (generateScript initState
        (GenOutcome.responded (some (Json.arr sampleScriptItems)))).step
      = Step.GAME ∧
    (generateScript initState
        (GenOutcome.responded (some (Json.arr sampleScriptItems)))).currentTurn
      = 0) :=
  ⟨rfl, c1_valid_script_starts_game initState sampleScriptItems rfl (by decide)⟩

/-- C2 counterexample: a performance-analysis AI call that throws is NOT
reported to the user and does NOT send the user back to a selection step:
from the analyzing state the error fields stay `none` and the step becomes
`COMPLETE`. -/
theorem c2_analysis_failure_is_silent :
    (analyzeStep analyzingState (fun _ => AiOutcome.threw)).error = none ∧
    (analyzeStep analyzingState (fun _ => AiOutcome.threw)).recognitionError
      = none ∧
    (analyzeStep analyzingState (fun _ => AiOutcome.threw)).step
      = Step.COMPLETE ∧
    getPhoneticBreakdown "cat" AiOutcome.threw = ["cat"] :=
  ⟨rfl, rfl, rfl, rfl⟩

/-- C2 (amended): failed script-generation calls are caught, set a
user-facing error message and return the step to `CHARACTER`; the
performance-analysis and phonetic-breakdown calls instead fail silently —
a failed analysis call contributes an empty word list, a failed phonetic
call falls back to the word itself, and the analysis step never touches
the user-facing error. -/
theorem c2_failed_ai_call_handling (s : GameState) (oc : GenOutcome)
    (hfail : (∃ m, oc = GenOutcome.threw m) ∨
      (∃ p, oc = GenOutcome.responded p ∧ validateScript p = none)) :
    ((generateScript s oc).error.isSome ∧
      (generateScript s oc).step = Step.CHARACTER) ∧
    (∀ w, getPhoneticBreakdown w AiOutcome.threw = [w]) ∧
    (∀ spoken target, (jsTrim spoken == "") = false →
      analyzeReadingWithAI spoken target AiOutcome.threw = some []) ∧
    (∀ (s2 : GameState) (oc2 : Nat → AiOutcome),
      (analyzeStep s2 oc2).error = s2.error) := by
  refine ⟨?_, ?_, ?_, ?_⟩
  · rcases hfail with ⟨m, rfl⟩ | ⟨p, rfl, hp⟩
    · simp [generateScript]
    · simp [generateScript, hp]
  · intro w; rfl
  · intro spoken target h; simp [analyzeReadingWithAI, h]
  · intro s2 oc2
    unfold analyzeStep
    split
    · rfl
    · split <;> rfl

/-- Witness for C2 (amended) at a concrete thrown script-generation
error. -/
theorem c2_failed_ai_call_handling_witness :
    ((generateScript initState (GenOutcome.threw "fetch failed")).error.isSome ∧
      (generateScript initState (GenOutcome.threw "fetch failed")).step
        = Step.CHARACTER) ∧
    getPhoneticBreakdown "turtle" AiOutcome.threw = ["turtle"] := by
  obtain ⟨h1, h2, _, _⟩ :=
    c2_failed_ai_call_handling initState (GenOutcome.threw "fetch failed")
      (Or.inl ⟨"fetch failed", rfl⟩)
  exact ⟨h1, h2 "turtle"⟩

/-- C3 counterexample: the comparison is not insensitive to ALL
punctuation.  The transcript `dog;` equals the target word `dog` under the
claimed all-punctuation-insensitive comparison, yet the practice attempt
ends in `TRY_AGAIN`, not `SUCCESS` (the code only strips `.`, `,`, `?`,
`!`). -/
theorem c3_semicolon_not_stripped :
    specPunctInsensitiveClean "dog;" = specPunctInsensitiveClean "dog" ∧
    (practiceAttempt practiceDogState
        (PracticeEvent.result "dog;")).practiceStatus
      = PracticeStatus.TRY_AGAIN :=
  ⟨rfl, rfl⟩

/-- C3 (amended): in the `PRACTICE` step, for every non-blank recognized
transcript with the current word index in range, the practice status
transitions to `SUCCESS` iff the transcript equals the target word after
trimming, lowercasing and removing the characters `.`, `,`, `?`, `!`
(only those four), and to `TRY_AGAIN` otherwise. -/
theorem c3_practice_match_iff_cleanWord (s : GameState) (raw : String)
    (hst : s.practiceStatus = PracticeStatus.IDLE ∨
      s.practiceStatus = PracticeStatus.TRY_AGAIN)
    (hne : (jsTrim raw == "") = false)
    (pw : PracticeWord)
    (hpw : s.practiceWords[s.currentPracticeWordIndex]? = some pw) :
    ((practiceAttempt s (PracticeEvent.result raw)).practiceStatus
        = PracticeStatus.SUCCESS
      ↔ cleanWord (jsTrim raw) = cleanWord pw.word) ∧
    (cleanWord (jsTrim raw) ≠ cleanWord pw.word →
      (practiceAttempt s (PracticeEvent.result raw)).practiceStatus
        = PracticeStatus.TRY_AGAIN) := by
  have hguard : (s.practiceStatus == PracticeStatus.LISTENING ||
      s.practiceStatus == PracticeStatus.SUCCESS) = false := by
    rcases hst with h | h <;> simp [h]
  by_cases hc : cleanWord (jsTrim raw) = cleanWord pw.word
  · constructor
    · simp [practiceAttempt, hguard, practiceResultHandler, hne, hpw, hc,
        practiceEndHandler]
    · intro h; exact absurd hc h
  · have hcb : (cleanWord (jsTrim raw) == cleanWord pw.word) = false := by
      simp [hc]
    constructor
    · simp [practiceAttempt, hguard, practiceResultHandler, hne, hpw, hcb,
        practiceEndHandler, hc]
    · intro _
      simp [practiceAttempt, hguard, practiceResultHandler, hne, hpw, hcb,
        practiceEndHandler]

/-- Witness for C3 (amended): the transcript `Dog!` matches the practice
word `dog` and the attempt succeeds. -/
theorem c3_practice_match_iff_cleanWord_witness :
    ((practiceAttempt practiceDogState
        (PracticeEvent.result "Dog!")).practiceStatus
      = PracticeStatus.SUCCESS
    ↔ cleanWord (jsTrim "Dog!") = cleanWord "dog") :=
  (c3_practice_match_iff_cleanWord practiceDogState "Dog!" (Or.inl rfl) rfl
    { word := "dog", phonemes := ["dog"] } rfl).1

/-- Projecting `expected` out of freshly built `Mistake` records gives
back the word list. -/
theorem map_expected_mk (l : List String) :
    ((l.map (fun word => ({ said := "", expected := word } : Mistake))).map
      (fun m => m.expected)) = l := by
  induction l with
  | nil => rfl
  | cons x xs ih => simp [ih]

/-- Projecting `word` out of freshly built `PracticeWord` records gives
back the word list. -/
theorem map_word_mk (ph : String → List String) (l : List String) :
    ((l.map (fun w => ({ word := w, phonemes := ph w } : PracticeWord))).map
      (fun p => p.word)) = l := by
  induction l with
  | nil => rfl
  | cons x xs ih => simp [ih]

/-- C4: after a completed performance analysis the mistake list has no
duplicate expected words, and the practice-word list built by
`preparePractice` is likewise duplicate-free. -/
theorem c4_mistakes_deduplicated (s : GameState) (outcomes : Nat → AiOutcome)
    (ws : List String)
    (hstep : s.step = Step.ANALYZING_PERFORMANCE)
    (hok : collectIncorrectWords s.userDialog outcomes 0 = some ws) :
    ((analyzeStep s outcomes).mistakes.map (fun m => m.expected)).Nodup ∧
    (∀ (s2 : GameState) (ph : String → List String),
      s2.step = Step.PRACTICE_PREP →
      ((preparePractice s2 ph).step = Step.PRACTICE →
        ((preparePractice s2 ph).practiceWords.map
          (fun p => p.word)).Nodup)) := by
  constructor
  · have hmist : (analyzeStep s outcomes).mistakes
        = (jsSetDedup ws).map
          (fun word => ({ said := "", expected := word } : Mistake)) := by
      simp [analyzeStep, hstep, hok]
    rw [hmist, map_expected_mk]
    exact jsSetDedup_nodup ws
  · intro s2 ph hstep2 hprac
    have hns : ¬s2.step ≠ Step.PRACTICE_PREP := by simp [hstep2]
    by_cases hlen :
        (jsSetDedup ((s2.mistakes.map (fun m => m.expected)).filter
          (fun w => w ≠ ""))).length = 0
    · exfalso
      unfold preparePractice at hprac
      rw [if_neg hns, if_pos hlen] at hprac
      exact Step.noConfusion (hstep2 ▸ hprac)
    · have hmap : (preparePractice s2 ph).practiceWords
          = ((jsSetDedup ((s2.mistakes.map (fun m => m.expected)).filter
              (fun w => w ≠ ""))).map
            (fun w => ({ word := w, phonemes := ph w } : PracticeWord))).filter
            (fun p => p.phonemes.length > 0) := by
        unfold preparePractice
        rw [if_neg hns, if_neg hlen]
      rw [hmap]
      refine List.Nodup.sublist
        (List.Sublist.map (fun p : PracticeWord => p.word)
          (List.filter_sublist _)) ?_
      rw [map_word_mk]
      exact jsSetDedup_nodup _

/-- Witness for C4: two user turns that both miss the word `a` produce
the deduplicated mistake list `a`, `b`, `c`, and a duplicated mistake
list yields duplicate-free practice words. -/
theorem c4_mistakes_deduplicated_witness :
    ((analyzeStep
        { initState with
          step := Step.ANALYZING_PERFORMANCE
          userDialog :=
            [{ target := some (Json.str "a b"), said := "" },
             { target := some (Json.str "a c"), said := "" }] }
        (fun _ => AiOutcome.threw)).mistakes.map
      (fun m => m.expected)).Nodup := by
  exact (c4_mistakes_deduplicated
    { initState with
      step := Step.ANALYZING_PERFORMANCE
      userDialog :=
        [{ target := some (Json.str "a b"), said := "" },
         { target := some (Json.str "a c"), said := "" }] }
    (fun _ => AiOutcome.threw) ["a", "b", "a", "c"] rfl (by decide)).1

/-- The practice `onresult` handler only ever touches
`practiceTranscript`. -/
theorem practiceResultHandler_frame (s : GameState) (raw : String) :
    ((practiceResultHandler s raw).1).currentPracticeWordIndex
        = s.currentPracticeWordIndex ∧
    ((practiceResultHandler s raw).1).practiceWords = s.practiceWords ∧
    ((practiceResultHandler s raw).1).completedCalled = s.completedCalled ∧
    ((practiceResultHandler s raw).1).script = s.script ∧
    ((practiceResultHandler s raw).1).step = s.step := by
  simp only [practiceResultHandler]
  repeat' split
  all_goals exact ⟨rfl, rfl, rfl, rfl, rfl⟩

/-- The practice `onerror` handler only ever touches
`recognitionError`. -/
theorem practiceErrorHandler_frame (s : GameState) (errType : String) :
    ((practiceErrorHandler s errType).1).currentPracticeWordIndex
        = s.currentPracticeWordIndex ∧
    ((practiceErrorHandler s errType).1).practiceWords = s.practiceWords ∧
    ((practiceErrorHandler s errType).1).completedCalled
        = s.completedCalled ∧
    ((practiceErrorHandler s errType).1).script = s.script ∧
    ((practiceErrorHandler s errType).1).step = s.step := by
  simp only [practiceErrorHandler]
  repeat' split
  all_goals exact ⟨rfl, rfl, rfl, rfl, rfl⟩

/-- The practice `onend` handler only ever touches `practiceStatus`. -/
theorem practiceEndHandler_frame (s : GameState)
    (attempt : Option AttemptResult) :
    (practiceEndHandler s attempt).currentPracticeWordIndex
        = s.currentPracticeWordIndex ∧
    (practiceEndHandler s attempt).practiceWords = s.practiceWords ∧
    (practiceEndHandler s attempt).completedCalled = s.completedCalled ∧
    (practiceEndHandler s attempt).script = s.script ∧
    (practiceEndHandler s attempt).step = s.step := by
  rcases attempt with _ | a
  · exact ⟨rfl, rfl, rfl, rfl, rfl⟩
  · cases a <;> exact ⟨rfl, rfl, rfl, rfl, rfl⟩

/-- A practice attempt never changes the practice-word list, the current
word index, the captured game data, the step, or the completion flag:
only `practiceTranscript`, `practiceStatus` and `recognitionError` can
move. -/
theorem practiceAttempt_frame (s : GameState) (ev : PracticeEvent) :
    (practiceAttempt s ev).currentPracticeWordIndex
        = s.currentPracticeWordIndex ∧
    (practiceAttempt s ev).practiceWords = s.practiceWords ∧
    (practiceAttempt s ev).completedCalled = s.completedCalled ∧
    (practiceAttempt s ev).script = s.script ∧
    (practiceAttempt s ev).step = s.step := by
  unfold practiceAttempt
  split
  · exact ⟨rfl, rfl, rfl, rfl, rfl⟩
  · cases ev with
    | result raw =>
      obtain ⟨e1, e2, e3, e4, e5⟩ :=
        practiceEndHandler_frame
          (practiceResultHandler
            { s with practiceTranscript := ""
                     practiceStatus := PracticeStatus.LISTENING } raw).1
          (practiceResultHandler
            { s with practiceTranscript := ""
                     practiceStatus := PracticeStatus.LISTENING } raw).2
      obtain ⟨r1, r2, r3, r4, r5⟩ :=
        practiceResultHandler_frame
          { s with practiceTranscript := ""
                   practiceStatus := PracticeStatus.LISTENING } raw
      exact ⟨e1.trans r1, e2.trans r2, e3.trans r3, e4.trans r4,
        e5.trans r5⟩
    | errorEvent errType =>
      obtain ⟨e1, e2, e3, e4, e5⟩ :=
        practiceEndHandler_frame
          (practiceErrorHandler
            { s with practiceTranscript := ""
                     practiceStatus := PracticeStatus.LISTENING } errType).1
          (practiceErrorHandler
            { s with practiceTranscript := ""
                     practiceStatus := PracticeStatus.LISTENING } errType).2
      obtain ⟨r1, r2, r3, r4, r5⟩ :=
        practiceErrorHandler_frame
          { s with practiceTranscript := ""
                   practiceStatus := PracticeStatus.LISTENING } errType
      exact ⟨e1.trans r1, e2.trans r2, e3.trans r3, e4.trans r4,
        e5.trans r5⟩
    | silence =>
      obtain ⟨e1, e2, e3, e4, e5⟩ :=
        practiceEndHandler_frame
          { s with practiceTranscript := ""
                   practiceStatus := PracticeStatus.LISTENING } none
      exact ⟨e1, e2, e3, e4, e5⟩
    | startFailed => exact ⟨rfl, rfl, rfl, rfl, rfl⟩

/-- The `practiceSuccessTimeout` body never changes the script. -/
theorem practiceSuccessTimeout_frame (s : GameState) :
    (practiceSuccessTimeout s).script = s.script ∧
    (practiceSuccessTimeout s).practiceWords = s.practiceWords := by
  unfold practiceSuccessTimeout
  split <;> simp

/-- C5 counterexample: a failed practice attempt is a fixed point of the
practice state — the state after a non-matching attempt from `TRY_AGAIN`
is literally identical to the state before it, so the state cannot count
attempts and no bounded-attempt exhaustion can ever advance a word. -/
theorem c5_failed_attempt_fixed_point :
    practiceAttempt practiceTryAgainState (PracticeEvent.result "dog")
      = practiceTryAgainState ∧
    practiceTryAgainState.currentPracticeWordIndex = 0 ∧
    practiceTryAgainState.completedCalled = false :=
  ⟨rfl, rfl, rfl⟩

/-- C5 (amended): the per-word loop repeats on failed attempts without
any bound; an attempt never advances the word index nor completes the
session, the `SUCCESS` status is reachable only when the transcript
matches the current word under `cleanWord`, and the timeout that follows
a `SUCCESS` advances to the next word — or, after the last word, ends the
session with `onComplete(true)`. -/
theorem c5_advance_only_on_match :
    (∀ (s : GameState) (ev : PracticeEvent),
      (practiceAttempt s ev).currentPracticeWordIndex
          = s.currentPracticeWordIndex ∧
      (practiceAttempt s ev).practiceWords = s.practiceWords ∧
      (practiceAttempt s ev).completedCalled = s.completedCalled) ∧
    (∀ (s : GameState) (raw : String),
      (s.practiceStatus = PracticeStatus.IDLE ∨
        s.practiceStatus = PracticeStatus.TRY_AGAIN) →
      (practiceAttempt s (PracticeEvent.result raw)).practiceStatus
          = PracticeStatus.SUCCESS →
      ∃ pw, s.practiceWords[s.currentPracticeWordIndex]? = some pw ∧
        cleanWord (jsTrim raw) = cleanWord pw.word) ∧
    (∀ s : GameState,
      s.currentPracticeWordIndex < s.practiceWords.length - 1 →
      (practiceSuccessTimeout s).currentPracticeWordIndex
          = s.currentPracticeWordIndex + 1 ∧
      (practiceSuccessTimeout s).completedCalled = s.completedCalled) ∧
    (∀ s : GameState,
      ¬s.currentPracticeWordIndex < s.practiceWords.length - 1 →
      (practiceSuccessTimeout s).completedCalled = true) := by
  refine ⟨?_, ?_, ?_, ?_⟩
  · intro s ev
    obtain ⟨h1, h2, h3, _, _⟩ := practiceAttempt_frame s ev
    exact ⟨h1, h2, h3⟩
  · intro s raw hst hsucc
    have hguard : (s.practiceStatus == PracticeStatus.LISTENING ||
        s.practiceStatus == PracticeStatus.SUCCESS) = false := by
      rcases hst with h | h <;> simp [h]
    cases hne : (jsTrim raw == "") with
    | true =>
      exfalso
      simp [practiceAttempt, hguard, practiceResultHandler, hne,
        practiceEndHandler] at hsucc
    | false =>
      rcases hpw : s.practiceWords[s.currentPracticeWordIndex]? with _ | pw
      · exfalso
        simp [practiceAttempt, hguard, practiceResultHandler, hne, hpw,
          practiceEndHandler] at hsucc
      · refine ⟨pw, rfl, ?_⟩
        by_cases hc : cleanWord (jsTrim raw) = cleanWord pw.word
        · exact hc
        · exfalso
          have hcb : (cleanWord (jsTrim raw) == cleanWord pw.word) = false :=
            by simp [hc]
          simp [practiceAttempt, hguard, practiceResultHandler, hne, hpw,
            hcb, practiceEndHandler, hc] at hsucc
  · intro s h
    unfold practiceSuccessTimeout
    rw [if_pos h]
    exact ⟨rfl, rfl⟩
  · intro s h
    unfold practiceSuccessTimeout
    rw [if_neg h]

/-- Witness for C5 (amended): a matching attempt on the only practice
word yields `SUCCESS`, whose timeout ends the session. -/
theorem c5_advance_only_on_match_witness :
    (practiceAttempt practiceDogState
        (PracticeEvent.result "cat")).currentPracticeWordIndex = 0 ∧
    (practiceSuccessTimeout practiceDogState).completedCalled = true := by
  obtain ⟨hframe, _, _, hlast⟩ := c5_advance_only_on_match
  exact ⟨(hframe practiceDogState (PracticeEvent.result "cat")).1,
    hlast practiceDogState (by decide)⟩

/-- C6: in both the game and the practice recognizer, the error types
`no-speech` and `aborted` are silently ignored (no user-facing message is
set); every other error type sets a user-facing message. -/
theorem c6_transient_errors_ignored (s : GameState) (e : String) :
    ((e = "no-speech" ∨ e = "aborted") →
      gameHandleError s e = s ∧
      ((practiceErrorHandler s e).1).recognitionError
        = s.recognitionError) ∧
    ((e ≠ "no-speech" ∧ e ≠ "aborted") →
      (gameHandleError s e).recognitionError.isSome ∧
      ((practiceErrorHandler s e).1).recognitionError.isSome) := by
  constructor
  · rintro (rfl | rfl) <;>
      exact ⟨by simp [gameHandleError], by simp [practiceErrorHandler]⟩
  · rintro ⟨h1, h2⟩
    have hb1 : (e == "no-speech") = false := by simp [h1]
    have hb2 : (e == "aborted") = false := by simp [h2]
    constructor
    · by_cases hperm : (e == "not-allowed" || e == "service-not-allowed")
        = true
      · simp [gameHandleError, hb1, hb2, hperm]
      · simp only [Bool.or_eq_true] at hperm
        push_neg at hperm
        simp [gameHandleError, hb1, hb2, hperm.1, hperm.2]
    · simp [practiceErrorHandler, hb1, hb2]

/-- Witness for C6: `no-speech` is ignored and `audio-capture` is
reported, in both recognizers. -/
theorem c6_transient_errors_ignored_witness :
    (gameHandleError initState "no-speech" = initState ∧
      ((practiceErrorHandler initState "no-speech").1).recognitionError
        = initState.recognitionError) ∧
    ((gameHandleError initState "audio-capture").recognitionError.isSome ∧
      ((practiceErrorHandler initState
        "audio-capture").1).recognitionError.isSome) :=
  ⟨(c6_transient_errors_ignored initState "no-speech").1 (Or.inl rfl),
   (c6_transient_errors_ignored initState "audio-capture").2
     ⟨by decide, by decide⟩⟩

/-- C7: during the `GAME` step, on an AI turn the effect triggers speech
synthesis of the current line and `handleAiTurnEnd` then advances the
turn; on a user turn an intentional recognition stop appends the pair
(current target line, captured transcript) to the user dialog and
advances the turn; in both cases the last turn moves the step to
`ANALYZING_PERFORMANCE` instead of incrementing. -/
theorem c7_turn_orchestration (s : GameState) (line : Json)
    (hline : s.script[s.currentTurn]? = some line) :
    (gameEffectActive s = true →
      isUserTurn line s.selectedCharacter = false →
      gameEffectSpeaks s = some (jsonField line "line")) ∧
    (s.currentTurn < s.script.length - 1 →
      (handleAiTurnEnd s).currentTurn = s.currentTurn + 1 ∧
      (handleAiTurnEnd s).step = s.step) ∧
    (¬s.currentTurn < s.script.length - 1 →
      (handleAiTurnEnd s).step = Step.ANALYZING_PERFORMANCE ∧
      (handleAiTurnEnd s).currentTurn = s.currentTurn) ∧
    (∀ transcriptRef : String,
      (gameRecognitionEnd s transcriptRef true false).userDialog
        = s.userDialog ++
          [{ target := jsonField line "line", said := jsTrim transcriptRef }] ∧
      (s.currentTurn < s.script.length - 1 →
        (gameRecognitionEnd s transcriptRef true false).currentTurn
          = s.currentTurn + 1 ∧
        (gameRecognitionEnd s transcriptRef true false).step = s.step) ∧
      (¬s.currentTurn < s.script.length - 1 →
        (gameRecognitionEnd s transcriptRef true false).step
          = Step.ANALYZING_PERFORMANCE ∧
        (gameRecognitionEnd s transcriptRef true false).currentTurn
          = s.currentTurn)) := by
  refine ⟨?_, ?_, ?_, ?_⟩
  · intro hactive huser
    simp [gameEffectSpeaks, hactive, hline, huser]
  · intro hlt
    unfold handleAiTurnEnd
    rw [if_pos hlt]
    exact ⟨rfl, rfl⟩
  · intro hge
    unfold handleAiTurnEnd
    rw [if_neg hge]
    exact ⟨rfl, rfl⟩
  · intro transcriptRef
    have hmain : gameRecognitionEnd s transcriptRef true false
        = processUserTurn { s with isRecognitionActive := false }
            (jsTrim transcriptRef) false := by
      simp [gameRecognitionEnd]
    refine ⟨?_, ?_, ?_⟩
    · rw [hmain]
      simp [processUserTurn, hline]
      split <;> rfl
    · intro hlt
      rw [hmain]
      simp only [processUserTurn, List.get?_eq_getElem?, hline,
        Bool.false_eq_true, if_false]
      rw [if_pos (by simpa using hlt)]
      exact ⟨rfl, rfl⟩
    · intro hge
      rw [hmain]
      simp only [processUserTurn, List.get?_eq_getElem?, hline,
        Bool.false_eq_true, if_false]
      rw [if_neg (by simpa using hge)]
      exact ⟨rfl, rfl⟩

/-- Witness for C7: in a concrete two-line game the first (AI) turn
speaks the shopkeeper's line and then advances to turn 1. -/
theorem c7_turn_orchestration_witness :
    gameEffectSpeaks gameStateTwoLines = some (some (Json.str "Welcome!")) ∧
    (handleAiTurnEnd gameStateTwoLines).currentTurn = 1 := by
  obtain ⟨h1, h2, _, _⟩ :=
    c7_turn_orchestration gameStateTwoLines
      (Json.obj [("character", Json.str "Shopkeeper"),
                 ("line", Json.str "Welcome!")]) rfl
  exact ⟨h1 rfl rfl, (h2 (by decide)).1⟩

/-- `processUserTurn` never changes the script. -/
theorem processUserTurn_script (s : GameState) (t : String) (b : Bool) :
    (processUserTurn s t b).script = s.script := by
  simp only [processUserTurn]
  repeat' split
  all_goals rfl

/-- C8: once generated, the script is never modified by any later
operation of the session — every modelled transition other than a fresh
`generateScript` (triggered by `handleCharacterSelect`) leaves `script`
exactly as it is. -/
theorem c8_script_immutable (s : GameState) :
    (handleAiTurnEnd s).script = s.script ∧
    (∀ (t : String) (b : Bool), (processUserTurn s t b).script = s.script) ∧
    (∀ (t : String) (b1 b2 : Bool),
      (gameRecognitionEnd s t b1 b2).script = s.script) ∧
    (gameRecognitionStart s).script = s.script ∧
    (∀ (t : String) (b : Bool),
      (gameRecognitionResult s t b).script = s.script) ∧
    (∀ e : Option String, (startRecognition s e).script = s.script) ∧
    (∀ e : String, (gameHandleError s e).script = s.script) ∧
    (∀ ev : PracticeEvent, (practiceAttempt s ev).script = s.script) ∧
    (practiceSuccessTimeout s).script = s.script ∧
    (∀ oc : Nat → AiOutcome, (analyzeStep s oc).script = s.script) ∧
    (∀ ph : String → List String,
      (preparePractice s ph).script = s.script) ∧
    (∀ sc : String, (handleSceneSelect s sc).script = s.script) ∧
    (handleBackToScenes s).script = s.script := by
  refine ⟨?_, ?_, ?_, rfl, ?_, ?_, ?_, ?_, ?_, ?_, ?_, fun _ => rfl, rfl⟩
  · unfold handleAiTurnEnd
    split <;> rfl
  · exact fun t b => processUserTurn_script s t b
  · intro t b1 b2
    simp only [gameRecognitionEnd]
    split
    · exact processUserTurn_script _ _ _
    · rfl
  · intro t b
    simp only [gameRecognitionResult]
    split <;> rfl
  · intro e
    simp only [startRecognition]
    repeat' split
    all_goals rfl
  · intro e
    simp only [gameHandleError]
    repeat' split
    all_goals rfl
  · exact fun ev => (practiceAttempt_frame s ev).2.2.2.1
  · exact (practiceSuccessTimeout_frame s).1
  · intro oc
    simp only [analyzeStep]
    repeat' split
    all_goals rfl
  · intro ph
    simp only [preparePractice]
    repeat' split
    all_goals rfl

/-- C9 counterexample: with a blank transcript the fallback splits the
target line on the space character only — a target containing a newline
is returned as one single "word", not as its whitespace-separated
words. -/
theorem c9_newline_target_not_split :
    analyzeReadingWithAI "" (some (Json.str "a\nb")) AiOutcome.threw
      = some ["a\nb"] ∧
    specWhitespaceWords "a\nb" = ["a", "b"] ∧
    (["a\nb"] : List String) ≠ ["a", "b"] := by
  refine ⟨rfl, by decide, by decide⟩

/-- C9 (amended): for every user turn whose captured transcript is empty
or whitespace-only, `analyzeReadingWithAI` returns every non-empty piece
of the target line split on the space character as the mistakes, and does
so for every AI-call outcome alike (no AI call is consulted). -/
theorem c9_blank_transcript_fallback (spoken : String) (t : String)
    (oc : AiOutcome) (h : (jsTrim spoken == "") = true) :
    analyzeReadingWithAI spoken (some (Json.str t)) oc
      = some ((jsSplitOn t ' ').filter (fun w => w ≠ "")) ∧
    analyzeReadingWithAI spoken (some (Json.str t)) oc
      = analyzeReadingWithAI spoken (some (Json.str t)) AiOutcome.threw := by
  constructor
  · simp [analyzeReadingWithAI, h]
  · simp [analyzeReadingWithAI, h]

/-- Witness for C9 (amended) at a whitespace-only transcript. -/
theorem c9_blank_transcript_fallback_witness :
    analyzeReadingWithAI "   " (some (Json.str "The big red dog."))
        (AiOutcome.responded (some (Json.arr [Json.str "zzz"])))
      = some ((jsSplitOn "The big red dog." ' ').filter (fun w => w ≠ "")) :=
  (c9_blank_transcript_fallback "   " "The big red dog."
    (AiOutcome.responded (some (Json.arr [Json.str "zzz"]))) rfl).1

/-- C10: `getPhoneticBreakdown` falls back to the singleton `[word]` on a
thrown call or any response that is not an array of strings, and
`preparePractice` filters out empty phoneme lists before entering
`PRACTICE`, so every practice word that reaches the `PRACTICE` step has a
non-empty phoneme list. -/
theorem c10_practice_words_have_phonemes (s : GameState)
    (outcomes : String → AiOutcome)
    (hstep : s.step = Step.PRACTICE_PREP) :
    ((preparePractice s
        (fun w => getPhoneticBreakdown w (outcomes w))).step = Step.PRACTICE →
      ∀ pw ∈ (preparePractice s
          (fun w => getPhoneticBreakdown w (outcomes w))).practiceWords,
        pw.phonemes ≠ []) ∧
    (∀ w, getPhoneticBreakdown w AiOutcome.threw = [w]) ∧
    (∀ (w : String) (p : Option Json), p.bind asStringArray = none →
      getPhoneticBreakdown w (AiOutcome.responded p) = [w]) := by
  refine ⟨?_, fun w => rfl, ?_⟩
  · intro hprac pw hpw
    have hns : ¬s.step ≠ Step.PRACTICE_PREP := by simp [hstep]
    by_cases hlen :
        (jsSetDedup ((s.mistakes.map (fun m => m.expected)).filter
          (fun w => w ≠ ""))).length = 0
    · exfalso
      unfold preparePractice at hprac
      rw [if_neg hns, if_pos hlen] at hprac
      exact Step.noConfusion (hstep ▸ hprac)
    · unfold preparePractice at hpw
      rw [if_neg hns, if_neg hlen] at hpw
      have hmem : pw ∈ ((jsSetDedup ((s.mistakes.map
            (fun m => m.expected)).filter (fun w => w ≠ ""))).map
          (fun w => ({ word := w, phonemes := getPhoneticBreakdown w (outcomes w) } : PracticeWord))).filter
          (fun p => p.phonemes.length > 0) := hpw
      have hlen0 := List.of_mem_filter hmem
      intro hnil
      simp [hnil] at hlen0
  · intro w p hp
    simp [getPhoneticBreakdown, hp]

/-- Witness for C10: the fallback facts at the word `cat`, through the
theorem instantiated at a concrete `PRACTICE_PREP` state. -/
theorem c10_practice_words_have_phonemes_witness :
    getPhoneticBreakdown "cat" AiOutcome.threw = ["cat"] ∧
    getPhoneticBreakdown "cat" (AiOutcome.responded (some (Json.str "x")))
      = ["cat"] := by
  obtain ⟨_, h2, h3⟩ := c10_practice_words_have_phonemes
    { initState with
      step := Step.PRACTICE_PREP
      mistakes := [{ said := "", expected := "cat" }] }
    (fun _ => AiOutcome.threw) rfl
  exact ⟨h2 "cat", h3 "cat" (some (Json.str "x")) rfl⟩

end TalkersCave
